import Mathlib

/-!
Verification of the ctypes logging binding in
`examples/py/ddog_logger.py` (DataDog/libdatadog).

The Python file defines binary-layout structures (`CharSlice`, `LogField`,
`LogFieldVec`, `LogEvent`), a `LogLevel` enumeration, wrappers around the
native functions `ddog_logger_init` and `ddog_logger_set_max_log_level`,
an error-checking helper `_check_error`, and an example callback
`log_callback`.

Embedding conventions:
* A ctypes pointer together with the memory it points to is modelled as
  `Option (List _)`: `none` is the NULL pointer, `some xs` is a non-null
  pointer whose pointee memory holds the sequence `xs`.
* A native pointer-sized return value (`restype = c_void_p`) is modelled
  as `Option Nat`: ctypes converts a NULL `c_void_p` result to Python
  `None` (here `none`) and a non-null one to a Python int (here `some p`
  with `0 < p`).
* Raising an exception is modelled with `Except String`.
* The native library itself is not part of the given source; where its
  behaviour is needed it is modelled from the spec, and those
  definitions say so in their doc comments.
-/

/-- The replacement character U+FFFD used by Python's
`decode("utf-8", errors="replace")`. -/
def replChar : Char := Char.ofNat 0xFFFD

/-- One step of CPython's UTF-8 decoder with `errors="replace"`:
consume one code point (or one maximal subpart of an ill-formed
sequence, which yields a single U+FFFD), returning the decoded
characters and the remaining bytes.  Follows the Unicode
"maximal subpart" substitution that CPython implements. -/
def utf8Step : List Nat → List Char × List Nat
  | [] => ([], [])
  | b :: rest =>
    if b < 0x80 then
      ([Char.ofNat b], rest)
    else if 0xC2 ≤ b && b ≤ 0xDF then
      match rest with
      | [] => ([replChar], [])
      | b1 :: rest1 =>
        if 0x80 ≤ b1 && b1 ≤ 0xBF then
          ([Char.ofNat ((b - 0xC0) * 64 + (b1 - 0x80))], rest1)
        else ([replChar], b1 :: rest1)
    else if 0xE0 ≤ b && b ≤ 0xEF then
      let lo1 := if b = 0xE0 then 0xA0 else 0x80
      let hi1 := if b = 0xED then 0x9F else 0xBF
      match rest with
      | [] => ([replChar], [])
      | b1 :: rest1 =>
        if lo1 ≤ b1 && b1 ≤ hi1 then
          match rest1 with
          | [] => ([replChar], [])
          | b2 :: rest2 =>
            if 0x80 ≤ b2 && b2 ≤ 0xBF then
              ([Char.ofNat ((b - 0xE0) * 4096 + (b1 - 0x80) * 64 + (b2 - 0x80))], rest2)
            else ([replChar], b2 :: rest2)
        else ([replChar], b1 :: rest1)
    else if 0xF0 ≤ b && b ≤ 0xF4 then
      let lo1 := if b = 0xF0 then 0x90 else 0x80
      let hi1 := if b = 0xF4 then 0x8F else 0xBF
      match rest with
      | [] => ([replChar], [])
      | b1 :: rest1 =>
        if lo1 ≤ b1 && b1 ≤ hi1 then
          match rest1 with
          | [] => ([replChar], [])
          | b2 :: rest2 =>
            if 0x80 ≤ b2 && b2 ≤ 0xBF then
              match rest2 with
              | [] => ([replChar], [])
              | b3 :: rest3 =>
                if 0x80 ≤ b3 && b3 ≤ 0xBF then
                  ([Char.ofNat ((b - 0xF0) * 262144 + (b1 - 0x80) * 4096
                      + (b2 - 0x80) * 64 + (b3 - 0x80))], rest3)
                else ([replChar], b3 :: rest3)
            else ([replChar], b2 :: rest2)
        else ([replChar], b1 :: rest1)
    else
      ([replChar], rest)

/-- Fuelled driver for `utf8Step`.  `utf8Step` consumes at least one byte
from a non-empty input, so fuel equal to the input length is enough. -/
def utf8Loop : Nat → List Nat → List Char
  | 0, _ => []
  | _ + 1, [] => []
  | fuel + 1, b :: rest =>
    let p := utf8Step (b :: rest)
    p.1 ++ utf8Loop fuel p.2

/-- Model of Python `bytes(bs).decode("utf-8", errors="replace")`:
total UTF-8 decoding where every ill-formed sequence is replaced by
U+FFFD instead of raising. -/
def utf8DecodeReplace (bs : List Nat) : String :=
  String.mk (utf8Loop bs.length bs)

/-- `CharSlice` (source lines 8-19): a raw pointer and a length.
`data = none` models a NULL pointer; `data = some bs` models a non-null
pointer whose pointee memory holds the bytes `bs`. -/
structure CharSlice where
  data : Option (List Nat)
  len : Nat
deriving DecidableEq, Repr, Inhabited

/-- `CharSlice.to_str` (source lines 14-19): returns `""` when the data
pointer is NULL (falsy) or the length is 0; otherwise reads exactly
`len` bytes from the pointer and decodes them as UTF-8 with
`errors="replace"`. -/
def CharSlice.to_str (s : CharSlice) : String :=
  match s.data with
  | none => ""
  | some bs => if s.len = 0 then "" else utf8DecodeReplace (bs.take s.len)

/-- `LogField` (source lines 22-26): a key/value pair of `CharSlice`s. -/
structure LogField where
  key : CharSlice
  value : CharSlice
deriving DecidableEq, Repr, Inhabited

/-- `LogFieldVec` (source lines 29-39): pointer to a field array, a
length and a capacity.  `ptr = none` is a NULL pointer, `ptr = some mem`
a non-null pointer to memory holding the fields `mem`. -/
structure LogFieldVec where
  ptr : Option (List LogField)
  len : Nat
  capacity : Nat
deriving DecidableEq, Repr, Inhabited

/-- `LogFieldVec.to_list` (source lines 36-39): `[]` when `ptr` is NULL
(falsy) or `len` is 0, otherwise `[self.ptr[i] for i in range(self.len)]`.
An out-of-bounds read (undefined behaviour in the source) is modelled by
`getD` returning `default`; the theorems assume `len ≤ mem.length`. -/
def LogFieldVec.to_list (v : LogFieldVec) : List LogField :=
  match v.ptr with
  | none => []
  | some mem =>
    if v.len = 0 then []
    else (List.range v.len).map (fun i => mem.getD i default)

/-- `LogEvent` (source lines 42-47): a C int level, a message slice and
a field vector. -/
structure LogEvent where
  level : Int
  message : CharSlice
  fields : LogFieldVec
deriving DecidableEq, Repr, Inhabited

/-! `LogLevel` (source lines 51-56): plain integer constants on a class. -/

namespace LogLevel

def DEBUG : Int := 0

def INFO : Int := 1

def WARN : Int := 2

def ERROR : Int := 3

def TRACE : Int := 4

end LogLevel

/-- Python truthiness of a ctypes `c_void_p` result: `None` is falsy,
an int is truthy iff non-zero. -/
def truthy : Option Nat → Bool
  | none => false
  | some p => p ≠ 0

/-- The message of the `RuntimeError` raised by `_check_error`
(source lines 72-75). -/
def runtimeErrorMsg : String :=
  "Rust returned an error (Box<Error>) — need ddog_error_message for details"

/-- `_check_error` (source lines 72-75): raises `RuntimeError` when the
native result is truthy, otherwise returns `None` (here `Except.ok ()`). -/
def check_error (result : Option Nat) : Except String Unit :=
  if truthy result then Except.error runtimeErrorMsg else Except.ok ()

/-- A `CALLBACK_TYPE(callback)` wrapper object (source line 59 and 97):
the ctypes function object that wraps the Python callable `cb`. -/
structure WrappedCb (Cb : Type) where
  cb : Cb
deriving DecidableEq, Repr

/-- Combined observable state of the Python module and the native
library.  `callback_holder` is the module global `_callback_holder`
(source line 68).  `native_threshold` and `native_sink` model the state
the spec attributes to the native library (threshold and registered
sink), which is not part of the given source. -/
structure LoggerState (Cb : Type) where
  callback_holder : Option (WrappedCb Cb)
  native_threshold : Int
  native_sink : Option (WrappedCb Cb)
deriving DecidableEq, Repr

/-- Modelled from the spec: the native `ddog_logger_init` is missing
from the source; per the spec it "sets the initial threshold and
registers the sink atomically as a single combined operation" and
returns a success/failure result (NULL pointer = success).  The result
is supplied as the oracle argument `res`; on failure nothing changes. -/
def native_logger_init (level : Int) (cb : WrappedCb Cb) (res : Option Nat)
    (s : LoggerState Cb) : LoggerState Cb × Option Nat :=
  if truthy res then (s, res)
  else ({ s with native_threshold := level, native_sink := some cb }, res)

/-- Modelled from the spec: the native `ddog_logger_set_max_log_level`
is missing from the source; per the spec it "replaces the threshold"
with "no side effect beyond the assignment", returning a
success/failure result (NULL pointer = success). -/
def native_set_max_log_level (level : Int) (res : Option Nat)
    (s : LoggerState Cb) : LoggerState Cb × Option Nat :=
  if truthy res then (s, res)
  else ({ s with native_threshold := level }, res)

/-- `ddog_logger_init` wrapper (source lines 95-100): wraps the callback,
stores it in the global `_callback_holder` (before calling the native
function), calls the native init, then `_check_error` on its result. -/
def ddog_logger_init (level : Int) (callback : Cb) (res : Option Nat)
    (s : LoggerState Cb) : LoggerState Cb × Except String Unit :=
  let cb := WrappedCb.mk callback
  let s1 := { s with callback_holder := some cb }
  let r := native_logger_init level cb res s1
  (r.1, check_error r.2)

/-- `ddog_logger_set_max_log_level` wrapper (source lines 103-105):
calls the native function, then `_check_error` on its result. -/
def ddog_logger_set_max_log_level (level : Int) (res : Option Nat)
    (s : LoggerState Cb) : LoggerState Cb × Except String Unit :=
  let r := native_set_max_log_level level res s
  (r.1, check_error r.2)

/-- A call to one of the two public wrappers, with the native result it
observes. -/
inductive PyOp (Cb : Type) where
  | init (level : Int) (callback : Cb) (res : Option Nat)
  | setMaxLevel (level : Int) (res : Option Nat)
deriving DecidableEq, Repr

/-- State transition of one wrapper call (the exception, if any,
propagates to the caller; the state left behind is `runOp`'s result). -/
def runOp : PyOp Cb → LoggerState Cb → LoggerState Cb
  | .init level cb res, s => (ddog_logger_init level cb res s).1
  | .setMaxLevel level res, s => (ddog_logger_set_max_log_level level res s).1

/-- Run a sequence of wrapper calls from a starting state. -/
def runTrace (ops : List (PyOp Cb)) (s : LoggerState Cb) : LoggerState Cb :=
  ops.foldl (fun s op => runOp op s) s

/-- The callback of the last `init` call in a trace, if any. -/
def lastInitCb : List (PyOp Cb) → Option Cb
  | [] => none
  | op :: ops =>
    match lastInitCb ops with
    | some c => some c
    | none =>
      match op with
      | .init _ cb _ => some cb
      | .setMaxLevel _ _ => none

/-- A structured log event as the spec's data model describes it:
a level, a message and an ordered field sequence. -/
structure Event where
  level : Int
  message : String
  fields : List (String × String)
deriving DecidableEq, Repr

/-- Modelled from the spec: the emission path (`emit`) lives in the
native library and is missing from the source.  Per the spec, if the
level is at or above the current threshold it constructs an Event with
an empty field sequence and delivers it synchronously to the registered
sink; otherwise it does nothing.  The returned list is the sequence of
sink invocations performed during the call, in order. -/
def emit (s : LoggerState Cb) (level : Int) (msg : String) :
    List (WrappedCb Cb × Event) :=
  match s.native_sink with
  | none => []
  | some k => if s.native_threshold ≤ level then [(k, ⟨level, msg, []⟩)] else []

/-- The level-name lookup in `log_callback` (source lines 118-125):
a dict from the five `LogLevel` values to their names, with default
`f"UNKNOWN({event.level})"`. -/
def level_name (level : Int) : String :=
  if level = LogLevel.DEBUG then "DEBUG"
  else if level = LogLevel.INFO then "INFO"
  else if level = LogLevel.WARN then "WARN"
  else if level = LogLevel.ERROR then "ERROR"
  else if level = LogLevel.TRACE then "TRACE"
  else "UNKNOWN(" ++ toString level ++ ")"

/-- The lines printed by `log_callback` (source lines 117-136), apart
from the thread-id line, which depends on the runtime thread and is not
modelled: the formatted level/message line, then one line per field. -/
def log_callback_lines (event : LogEvent) : List String :=
  ("[" ++ level_name event.level ++ "] " ++ event.message.to_str) ::
    event.fields.to_list.map
      (fun f => "  " ++ f.key.to_str ++ " = " ++ f.value.to_str)

lemma ddog_logger_init_snd {Cb : Type} (level : Int) (callback : Cb)
    (res : Option Nat) (s : LoggerState Cb) :
    (ddog_logger_init level callback res s).2 = check_error res := by
  by_cases h : truthy res <;>
    simp [ddog_logger_init, native_logger_init, h]

lemma ddog_logger_set_max_log_level_snd {Cb : Type} (level : Int)
    (res : Option Nat) (s : LoggerState Cb) :
    (ddog_logger_set_max_log_level level res s).2 = check_error res := by
  by_cases h : truthy res <;>
    simp [ddog_logger_set_max_log_level, native_set_max_log_level, h]

/-- Claim C1: for every call to `ddog_logger_init(level, callback)` and
every call to `ddog_logger_set_max_log_level(level)`, a `RuntimeError`
is raised if and only if the underlying native function returns a
non-null pointer result; a null (falsy) result makes the wrapper return
`None` with no exception.  (ctypes maps a non-null `c_void_p` result to
a non-zero int, hence the hypothesis `0 < p`.) -/
theorem wrappers_raise_iff_nonnull {Cb : Type} (level : Int) (callback : Cb)
    (res : Option Nat) (s : LoggerState Cb)
    (hres : ∀ p, res = some p → 0 < p) :
    ((ddog_logger_init level callback res s).2 = Except.error runtimeErrorMsg
       ↔ res.isSome) ∧
    ((ddog_logger_init level callback res s).2 = Except.ok () ↔ res = none) ∧
    ((ddog_logger_set_max_log_level level res s).2 = Except.error runtimeErrorMsg
       ↔ res.isSome) ∧
    ((ddog_logger_set_max_log_level level res s).2 = Except.ok () ↔ res = none) := by
  rw [ddog_logger_init_snd, ddog_logger_set_max_log_level_snd]
  cases res with
  | none => simp [check_error, truthy]
  | some p =>
    have hp : p ≠ 0 := Nat.pos_iff_ne_zero.mp (hres p rfl)
    simp [check_error, truthy, hp]

/-- Witness for C1 at concrete inputs: a non-null native result raises,
a null one returns `None`. -/
theorem wrappers_raise_iff_nonnull_witness :
    (ddog_logger_init 0 (0 : Nat) (some 1) ⟨none, 0, none⟩).2
      = Except.error runtimeErrorMsg ∧
    (ddog_logger_set_max_log_level 2 none (⟨none, 0, none⟩ : LoggerState Nat)).2
      = Except.ok () := by
  constructor
  · exact (wrappers_raise_iff_nonnull 0 (0 : Nat) (some 1) ⟨none, 0, none⟩
      (by intro p hp; cases hp; decide)).1.mpr (by decide)
  · exact (wrappers_raise_iff_nonnull 2 (0 : Nat) none ⟨none, 0, none⟩
      (by intro p hp; cases hp)).2.2.2.mpr rfl

/-- Claim C2: the `LogLevel` enumeration defines exactly the five levels
DEBUG=0, INFO=1, WARN=2, ERROR=3, TRACE=4, and under the numeric total
order TRACE is the highest value, above ERROR. -/
theorem logLevel_values_and_order :
    LogLevel.DEBUG = 0 ∧ LogLevel.INFO = 1 ∧ LogLevel.WARN = 2 ∧
    LogLevel.ERROR = 3 ∧ LogLevel.TRACE = 4 ∧
    LogLevel.ERROR < LogLevel.TRACE ∧
    LogLevel.DEBUG < LogLevel.TRACE ∧ LogLevel.INFO < LogLevel.TRACE ∧
    LogLevel.WARN < LogLevel.TRACE := by
  refine ⟨rfl, rfl, rfl, rfl, rfl, ?_, ?_, ?_, ?_⟩ <;> decide

/-- Claim C3: for every `CharSlice` whose data pointer is non-null and
whose `len` is positive (and whose pointee memory holds at least `len`
bytes, the implicit validity contract of the raw read), `to_str` is the
total lossy UTF-8 decoding of exactly the first `len` bytes. -/
theorem to_str_decodes_first_len_bytes (s : CharSlice) (bs : List Nat)
    (hdata : s.data = some bs) (hlen : 0 < s.len) (hmem : s.len ≤ bs.length) :
    s.to_str = utf8DecodeReplace (bs.take s.len) ∧
    (bs.take s.len).length = s.len := by
  constructor
  · simp [CharSlice.to_str, hdata, Nat.pos_iff_ne_zero.mp hlen]
  · simp [List.length_take, Nat.min_eq_left hmem]

/-- Witness for C3 at a concrete slice over the bytes `[0xFF, 0x41, 0x42]`
with `len = 2`: only the first two bytes are decoded, and the ill-formed
byte `0xFF` is replaced by U+FFFD instead of raising. -/
theorem to_str_decodes_first_len_bytes_witness :
    (CharSlice.mk (some [0xFF, 0x41, 0x42]) 2).to_str
      = utf8DecodeReplace [0xFF, 0x41] ∧
    utf8DecodeReplace [0xFF, 0x41] = String.mk [replChar, 'A'] := by
  constructor
  · have h := to_str_decodes_first_len_bytes
      (CharSlice.mk (some [0xFF, 0x41, 0x42]) 2) [0xFF, 0x41, 0x42]
      rfl (by decide) (by decide)
    simpa using h.1
  · decide

/-- Claim C9: for every `CharSlice` whose data pointer is null or whose
`len` is 0, `to_str` returns `""` without reading the pointee memory, so
`to_str` is total over all `CharSlice` values including null slices. -/
theorem to_str_null_or_zero_len (s : CharSlice)
    (h : s.data = none ∨ s.len = 0) : s.to_str = "" := by
  rcases h with h | h
  · simp [CharSlice.to_str, h]
  · cases hd : s.data <;> simp [CharSlice.to_str, h, hd]

/-- Witness for C9: a null slice with positive `len`, and a non-null
slice with `len = 0`, both decode to `""`. -/
theorem to_str_null_or_zero_len_witness :
    (CharSlice.mk none 5).to_str = "" ∧
    (CharSlice.mk (some [0x41]) 0).to_str = "" :=
  ⟨to_str_null_or_zero_len (CharSlice.mk none 5) (Or.inl rfl),
   to_str_null_or_zero_len (CharSlice.mk (some [0x41]) 0) (Or.inr rfl)⟩

lemma map_getD_range_eq_take (mem : List LogField) (n : Nat)
    (hn : n ≤ mem.length) :
    (List.range n).map (fun i => mem.getD i default) = mem.take n := by
  apply List.ext_getElem
  · simp [Nat.min_eq_left hn]
  · intro i h1 h2
    simp only [List.getElem_map, List.getElem_range, List.getElem_take]
    exact List.getD_eq_getElem mem default (by simp at h1; omega)

/-- Claim C4: for every `LogFieldVec` with a non-null `ptr` to memory
holding at least `len` fields and `len > 0`, `to_list` returns exactly
the first `len` fields in index order `0..len-1`: insertion order is
preserved and every entry is retained, duplicates included — it is a
prefix copy, with no reordering or deduplication. -/
theorem to_list_preserves_fields (v : LogFieldVec) (mem : List LogField)
    (hptr : v.ptr = some mem) (hlen : 0 < v.len) (hmem : v.len ≤ mem.length) :
    v.to_list = mem.take v.len ∧ v.to_list.length = v.len ∧
    ∀ i, i < v.len → v.to_list.getD i default = mem.getD i default := by
  have hne : v.len ≠ 0 := Nat.pos_iff_ne_zero.mp hlen
  have hmain : v.to_list = mem.take v.len := by
    simp only [LogFieldVec.to_list, hptr, if_neg hne]
    exact map_getD_range_eq_take mem v.len hmem
  refine ⟨hmain, ?_, ?_⟩
  · simp [hmain, List.length_take, Nat.min_eq_left hmem]
  · intro i hi
    have hil : i < mem.length := Nat.lt_of_lt_of_le hi hmem
    have hit : i < (mem.take v.len).length := by
      simp [List.length_take, Nat.min_eq_left hmem, hi]
    rw [hmain, List.getD_eq_getElem (mem.take v.len) default hit,
      List.getD_eq_getElem mem default hil, List.getElem_take]

/-- A concrete field with one-byte key and value, for witnesses. -/
def mkField (k v : Nat) : LogField :=
  ⟨⟨some [k], 1⟩, ⟨some [v], 1⟩⟩

/-- Witness for C4 at a concrete vector whose memory holds a duplicate
key (`mkField 97 49` appears at indices 0 and 2): `to_list` returns all
three entries, in index order, duplicates retained. -/
theorem to_list_preserves_fields_witness :
    (LogFieldVec.mk (some [mkField 97 49, mkField 98 50, mkField 97 49]) 3 4).to_list
      = [mkField 97 49, mkField 98 50, mkField 97 49] := by
  have h := to_list_preserves_fields
    (LogFieldVec.mk (some [mkField 97 49, mkField 98 50, mkField 97 49]) 3 4)
    [mkField 97 49, mkField 98 50, mkField 97 49]
    rfl (by decide) (by decide)
  simpa using h.1

lemma runOp_callback_holder {Cb : Type} (op : PyOp Cb) (s : LoggerState Cb) :
    (runOp op s).callback_holder =
      match op with
      | .init _ cb _ => some ⟨cb⟩
      | .setMaxLevel _ _ => s.callback_holder := by
  cases op with
  | init level cb res =>
    by_cases h : truthy res <;>
      simp [runOp, ddog_logger_init, native_logger_init, h]
  | setMaxLevel level res =>
    by_cases h : truthy res <;>
      simp [runOp, ddog_logger_set_max_log_level, native_set_max_log_level, h]

lemma runTrace_cons {Cb : Type} (op : PyOp Cb) (ops : List (PyOp Cb))
    (s : LoggerState Cb) : runTrace (op :: ops) s = runTrace ops (runOp op s) :=
  rfl

/-- Claim C5: every `ddog_logger_init(level, callback)` call stores the
wrapped callback in the module-global `_callback_holder`, replacing the
previous one, and that reference is retained until the next init call
replaces it (or the trace ends): after any sequence of wrapper calls the
holder is exactly the wrapped callback of the last init in the sequence,
or the initial holder if no init occurred.  This holds whether each call
succeeded or raised. -/
theorem callback_holder_is_last_init {Cb : Type} (ops : List (PyOp Cb))
    (s : LoggerState Cb) :
    (runTrace ops s).callback_holder =
      match lastInitCb ops with
      | some cb => some ⟨cb⟩
      | none => s.callback_holder := by
  induction ops generalizing s with
  | nil => rfl
  | cons op ops ih =>
    rw [runTrace_cons, ih (runOp op s)]
    cases hlast : lastInitCb ops with
    | some c => simp [lastInitCb, hlast]
    | none =>
      rw [runOp_callback_holder]
      cases op <;> simp [lastInitCb, hlast]

/-- Concrete pre-state for the C6 counterexample: a callback (id 1) is
already registered, threshold 0. -/
def cexState : LoggerState Nat := ⟨some ⟨1⟩, 0, some ⟨1⟩⟩

/-- Counterexample to C6 as stated: calling `ddog_logger_init 2 7` when
the native init fails (non-null result 5) raises, yet the registration
state is NOT left unchanged — `_callback_holder` has already been
replaced by the new wrapped callback before the error check runs. -/
theorem init_failure_changes_holder_cex :
    (ddog_logger_init 2 7 (some 5) cexState).2.isOk = false ∧
    (ddog_logger_init 2 7 (some 5) cexState).1.callback_holder
      ≠ cexState.callback_holder := by
  decide

/-- Claim C6, amended: on success (null native result) the wrapper sets
the threshold and registers the sink in one native call and stores the
wrapped callback in `_callback_holder`; on failure (non-null result) it
raises and the native state is unchanged, but `_callback_holder` has
nevertheless already been replaced by the new wrapped callback, because
the wrapper assigns the global before calling the native init. -/
theorem init_success_or_failure_state {Cb : Type} (level : Int)
    (callback : Cb) (res : Option Nat) (s : LoggerState Cb) :
    (truthy res = false →
      (ddog_logger_init level callback res s).2 = Except.ok () ∧
      (ddog_logger_init level callback res s).1 =
        ⟨some ⟨callback⟩, level, some ⟨callback⟩⟩) ∧
    (truthy res = true →
      (ddog_logger_init level callback res s).2 = Except.error runtimeErrorMsg ∧
      (ddog_logger_init level callback res s).1 =
        ⟨some ⟨callback⟩, s.native_threshold, s.native_sink⟩) := by
  constructor <;> intro h <;>
    simp [ddog_logger_init, native_logger_init, check_error, h]

/-- Witness for the amended C6 at concrete inputs: one failing call and
one succeeding call. -/
theorem init_success_or_failure_state_witness :
    ((ddog_logger_init 2 7 (some 5) cexState).2 = Except.error runtimeErrorMsg ∧
     (ddog_logger_init 2 7 (some 5) cexState).1 = ⟨some ⟨7⟩, 0, some ⟨1⟩⟩) ∧
    ((ddog_logger_init 2 7 none cexState).2 = Except.ok () ∧
     (ddog_logger_init 2 7 none cexState).1 = ⟨some ⟨7⟩, 2, some ⟨7⟩⟩) := by
  constructor
  · exact (init_success_or_failure_state 2 7 (some 5) cexState).2 (by decide)
  · exact (init_success_or_failure_state 2 7 none cexState).1 (by decide)

/-- Claim C7: `ddog_logger_set_max_log_level(level)` has no side effect
beyond replacing the threshold: for every prior state, the registered
callback `_callback_holder` (and the native sink) is left unchanged,
whether the call succeeds or raises; on success the threshold becomes
`level`. -/
theorem set_max_log_level_frame {Cb : Type} (level : Int) (res : Option Nat)
    (s : LoggerState Cb) :
    (ddog_logger_set_max_log_level level res s).1.callback_holder
      = s.callback_holder ∧
    (ddog_logger_set_max_log_level level res s).1.native_sink
      = s.native_sink ∧
    (truthy res = false →
      (ddog_logger_set_max_log_level level res s).1.native_threshold = level) := by
  by_cases h : truthy res <;>
    simp [ddog_logger_set_max_log_level, native_set_max_log_level, h]

/-- Witness for C7 at concrete inputs: a raising call and a succeeding
call both leave the holder untouched; the succeeding one sets the
threshold. -/
theorem set_max_log_level_frame_witness :
    (ddog_logger_set_max_log_level 3 (some 9) cexState).1.callback_holder
      = cexState.callback_holder ∧
    (ddog_logger_set_max_log_level 3 none cexState).1.native_threshold = 3 :=
  ⟨(set_max_log_level_frame 3 (some 9) cexState).1,
   (set_max_log_level_frame 3 none cexState).2.2 (by decide)⟩

/-- Claim C8: for every level `L` and message, `emit L msg` invokes the
registered sink if and only if `L` is at or above the current threshold,
and when it does, the sink is invoked exactly once (the invocation list
of the call has length 1, produced before `emit` returns); below-threshold
emissions produce no invocation at all. -/
theorem emit_iff_at_or_above_threshold {Cb : Type} (s : LoggerState Cb)
    (k : WrappedCb Cb) (level : Int) (msg : String)
    (hsink : s.native_sink = some k) :
    (s.native_threshold ≤ level →
      emit s level msg = [(k, ⟨level, msg, []⟩)]) ∧
    (level < s.native_threshold → emit s level msg = []) ∧
    ((emit s level msg).length = 1 ↔ s.native_threshold ≤ level) := by
  by_cases h : s.native_threshold ≤ level
  · simp [emit, hsink, h]
  · simp [emit, hsink, h]

/-- Witness for C8 at a concrete state with threshold 1 and sink id 0:
level 3 is delivered exactly once, level 0 not at all. -/
theorem emit_iff_at_or_above_threshold_witness :
    emit (⟨none, 1, some ⟨0⟩⟩ : LoggerState Nat) 3 "y"
      = [(⟨0⟩, ⟨3, "y", []⟩)] ∧
    emit (⟨none, 1, some ⟨0⟩⟩ : LoggerState Nat) 0 "x" = [] :=
  ⟨(emit_iff_at_or_above_threshold ⟨none, 1, some ⟨0⟩⟩ ⟨0⟩ 3 "y" rfl).1
      (by decide),
   (emit_iff_at_or_above_threshold ⟨none, 1, some ⟨0⟩⟩ ⟨0⟩ 0 "x" rfl).2.1
      (by decide)⟩

/-- Claim C10: `log_callback`'s level formatting is total over all
integer level values: the first printed line formats the level through
`level_name`, which maps 0..4 to DEBUG, INFO, WARN, ERROR, TRACE and
every other integer to `UNKNOWN(<level>)` instead of failing. -/
theorem log_callback_level_total (e : LogEvent) :
    (log_callback_lines e).head? =
      some ("[" ++ level_name e.level ++ "] " ++ e.message.to_str) ∧
    (e.level = 0 → level_name e.level = "DEBUG") ∧
    (e.level = 1 → level_name e.level = "INFO") ∧
    (e.level = 2 → level_name e.level = "WARN") ∧
    (e.level = 3 → level_name e.level = "ERROR") ∧
    (e.level = 4 → level_name e.level = "TRACE") ∧
    ((e.level < 0 ∨ 4 < e.level) →
      level_name e.level = "UNKNOWN(" ++ toString e.level ++ ")") := by
  refine ⟨rfl, ?_, ?_, ?_, ?_, ?_, ?_⟩ <;> intro h
  · simp [level_name, h, LogLevel.DEBUG]
  · simp [level_name, h, LogLevel.DEBUG, LogLevel.INFO]
  · simp [level_name, h, LogLevel.DEBUG, LogLevel.INFO, LogLevel.WARN]
  · simp [level_name, h, LogLevel.DEBUG, LogLevel.INFO, LogLevel.WARN,
      LogLevel.ERROR]
  · simp [level_name, h, LogLevel.DEBUG, LogLevel.INFO, LogLevel.WARN,
      LogLevel.ERROR, LogLevel.TRACE]
  · have h0 : e.level ≠ 0 := by omega
    have h1 : e.level ≠ 1 := by omega
    have h2 : e.level ≠ 2 := by omega
    have h3 : e.level ≠ 3 := by omega
    have h4 : e.level ≠ 4 := by omega
    simp [level_name, LogLevel.DEBUG, LogLevel.INFO, LogLevel.WARN,
      LogLevel.ERROR, LogLevel.TRACE, h0, h1, h2, h3, h4]

/-- Witness for C10 at concrete events: an out-of-range level 7 formats
as UNKNOWN(7), and the in-range level 3 as ERROR. -/
theorem log_callback_level_total_witness :
    level_name (7 : Int) = "UNKNOWN(7)" ∧ level_name (3 : Int) = "ERROR" := by
  constructor
  · have h := (log_callback_level_total
      ⟨7, ⟨none, 0⟩, ⟨none, 0, 0⟩⟩).2.2.2.2.2.2 (Or.inr (by decide))
    simpa using h
  · exact (log_callback_level_total ⟨3, ⟨none, 0⟩, ⟨none, 0, 0⟩⟩).2.2.2.2.1 rfl
